import Mathlib

/-!
Verification development for the CINE-OS single-page application.

The file shallowly embeds the parts of the code base that the checked
properties speak about:

* the script-tree data model (`types.ts`);
* the sanitize-and-default stage of `analyzeNovel`, the id-assignment of
  `generateShotsForBeat`, the request construction of `analyzeNovel` and the
  response handling of `generateShotImage` (`services/gemini.ts`);
* the workspace state handlers `toggleScene`, `handleBeatSelect`,
  `renderShotImage`, `renderShotVideo` and the shot-cell button logic of the
  workspace view (`App.tsx`).

External API calls are modelled by passing the call's outcome
(`Except String α`) to the handler; JavaScript string falsiness (`x || d`)
is modelled by `strOr` on `Option String`, where `none` stands for a missing
or null field and `some ""` for the empty string.
-/

set_option maxRecDepth 2048

namespace CineOS

/-! ### Data model (`types.ts`) -/

inductive AssetType where
  | CHARACTER
  | LOCATION
  | PROP
  deriving DecidableEq

structure Asset where
  id : String
  name : String
  type : AssetType
  visualDescription : String
  avatarUrl : Option String := none
  deriving DecidableEq

structure Shot where
  id : String
  shotType : String
  visualPrompt : String
  action : String
  assetIds : List String
  imageUrl : Option String := none
  videoUrl : Option String := none
  deriving DecidableEq

structure Beat where
  id : String
  description : String
  shots : List Shot
  deriving DecidableEq

structure Scene where
  id : String
  slugline : String
  beats : List Beat
  isExpanded : Bool
  deriving DecidableEq

structure ScriptData where
  title : String
  genre : String
  logline : String
  assets : List Asset
  scenes : List Scene
  deriving DecidableEq

inductive LogType where
  | info
  | success
  | warning
  | error
  deriving DecidableEq

structure LogEntry where
  timestamp : String
  message : String
  type : LogType
  deriving DecidableEq

inductive ProcessingState where
  | IDLE
  | ANALYZING_SCRIPT
  | GENERATING_SHOTS
  | GENERATING_VISUALS
  | GENERATING_VIDEO
  | COMPLETE
  | ERROR
  deriving DecidableEq

/-! ### Decimal rendering of indices

The fallback ids of `gemini.ts` interpolate a numeric index into a template
literal (`scene_${sIdx}`, `beat_${sIdx}_${bIdx}`, `shot_${Date.now()}_${i}`).
`natDecimal` embeds that decimal rendering; `decChars` is its character-level
worker. -/

def decChars (n : Nat) : List Char :=
  if h : n < 10 then [Nat.digitChar n]
  else decChars (n / 10) ++ [Nat.digitChar (n % 10)]
decreasing_by
  exact Nat.div_lt_self (Nat.lt_of_lt_of_le (by decide) (Nat.le_of_not_lt h)) (by decide)

def natDecimal (n : Nat) : String :=
  String.mk (decChars n)

/-- Numeric value of a decimal digit character. -/
def charVal (c : Char) : Nat := c.toNat - 48

/-- Value of a character list read as a decimal numeral. -/
def decVal (cs : List Char) : Nat :=
  cs.foldl (fun acc c => acc * 10 + charVal c) 0

/-! ### `services/gemini.ts` — `analyzeNovel` sanitize stage

`strOr v d` embeds the JavaScript expression `v || d` for string-valued
fields: the default is taken when the field is missing (`none`), null
(`none`) or the empty string. -/

def strOr (v : Option String) (d : String) : String :=
  match v with
  | none => d
  | some s => if s = "" then d else s

/-- A beat of the decoded JSON of the text-analysis response. -/
structure ParsedBeat where
  id : Option String
  description : Option String
  deriving DecidableEq

/-- A scene of the decoded JSON.  `beats = none` covers both a missing and a
non-array `beats` field (`Array.isArray` guard in the source). -/
structure ParsedScene where
  id : Option String
  slugline : Option String
  beats : Option (List ParsedBeat)
  deriving DecidableEq

/-- The decoded JSON of the text-analysis response.  `assets = none` and
`scenes = none` cover missing and non-array fields. -/
structure ParsedData where
  title : Option String
  genre : Option String
  logline : Option String
  assets : Option (List Asset)
  scenes : Option (List ParsedScene)
  deriving DecidableEq

/-- Sanitized beat: `{ id: beat.id || `beat_${sIdx}_${bIdx}`,
description: beat.description || "", shots: [] }`. -/
def sanitizeBeat (sIdx bIdx : Nat) (b : ParsedBeat) : Beat :=
  { id := strOr b.id ("beat_" ++ natDecimal sIdx ++ "_" ++ natDecimal bIdx)
    description := strOr b.description ""
    shots := [] }

/-- Indexed map of `sanitizeBeat`, embedding `scene.beats.map((beat, bIdx) => ...)`. -/
def sanitizeBeats (sIdx : Nat) : Nat → List ParsedBeat → List Beat
  | _, [] => []
  | bIdx, b :: rest => sanitizeBeat sIdx bIdx b :: sanitizeBeats sIdx (bIdx + 1) rest

/-- Sanitized scene: `{ id: scene.id || `scene_${sIdx}`, slugline: scene.slugline
|| "UNKNOWN SCENE", isExpanded: true, beats: Array.isArray(scene.beats) ?
scene.beats.map(...) : [] }`. -/
def sanitizeScene (sIdx : Nat) (sc : ParsedScene) : Scene :=
  { id := strOr sc.id ("scene_" ++ natDecimal sIdx)
    slugline := strOr sc.slugline "UNKNOWN SCENE"
    isExpanded := true
    beats := match sc.beats with
      | some bs => sanitizeBeats sIdx 0 bs
      | none => [] }

/-- Indexed map of `sanitizeScene`, embedding `parsed.scenes.map((scene, sIdx) => ...)`. -/
def sanitizeScenes : Nat → List ParsedScene → List Scene
  | _, [] => []
  | sIdx, sc :: rest => sanitizeScene sIdx sc :: sanitizeScenes (sIdx + 1) rest

/-- The value returned by `analyzeNovel` (gemini.ts lines 107-125) as a function
of the decoded JSON of the response. -/
def analyzeNovelResult (parsed : ParsedData) : ScriptData :=
  { title := strOr parsed.title "Untitled"
    genre := strOr parsed.genre "Drama"
    logline := strOr parsed.logline ""
    assets := parsed.assets.getD []
    scenes := match parsed.scenes with
      | some ss => sanitizeScenes 0 ss
      | none => [] }

/-! ### `services/gemini.ts` — `generateShotsForBeat` id assignment

`shots.map((s, i) => ({...s, id: s.id || `shot_${Date.now()}_${i}`}))`.
The decoded shots are untyped JSON; a missing or empty id is modelled by
`id = ""`.  `now` stands for the value of `Date.now()` (modelled as constant
over the map). -/

def assignShotIds (now : Nat) : Nat → List Shot → List Shot
  | _, [] => []
  | i, s :: rest =>
      (if s.id = ""
        then { s with id := "shot_" ++ natDecimal now ++ "_" ++ natDecimal i }
        else s) :: assignShotIds now (i + 1) rest

/-! ### `services/gemini.ts` — `analyzeNovel` request construction -/

inductive AnalyzeMode where
  | NOVEL
  | SCRIPT
  deriving DecidableEq

/-- The system instruction chosen by `analyzeNovel` from its mode flag
(gemini.ts lines 20-47, text condensed to its sentences). -/
def systemInstructionFor (mode : AnalyzeMode) : String :=
  match mode with
  | .NOVEL =>
      "You are a professional Screenwriter.\n" ++
      "Analyze the provided NOVEL/RAW TEXT.\n" ++
      "1. EXTRACT ASSETS: Identify key characters and locations. Provide a 'visualDescription' for each.\n" ++
      "2. ADAPT TO SCRIPT: Break the narrative into SCENES based on location or time changes. " ++
      "Give each scene a proper SLUGLINE (e.g., \"INT. APARTMENT - DAY\"). " ++
      "Inside each scene, break the action down into narrative BEATS.\n" ++
      "Output JSON."
  | .SCRIPT =>
      "You are a professional Script Supervisor and Data Architect.\n" ++
      "Analyze the provided SCREENPLAY/SCRIPT text.\n" ++
      "1. PARSE STRUCTURE: Identify existing SCENES (Sluglines) and their content. " ++
      "Break scene content into action BEATS.\n" ++
      "2. EXTRACT ASSETS: Identify characters and locations mentioned in the script. " ++
      "Infer visual descriptions based on the context if not explicitly stated.\n" ++
      "Output JSON."

/-- The request `analyzeNovel` hands to `ai.models.generateContent`: model name,
the single text part, and the system instruction. -/
structure GenRequest where
  model : String
  contents : String
  systemInstruction : String
  deriving DecidableEq

/-- Request construction of `analyzeNovel` (gemini.ts lines 49-57):
`const safeText = text.substring(0, 20000)` followed by the
`generateContent` call with `parts: [{ text: safeText }]`. -/
def analyzeRequest (text : String) (mode : AnalyzeMode) : GenRequest :=
  { model := "gemini-2.5-flash"
    contents := text.take 20000
    systemInstruction := systemInstructionFor mode }

/-! ### `services/gemini.ts` — `generateShotImage` response handling

`GenImageParts` models `response.candidates?.[0]?.content?.parts`: the part
list of the first candidate, absent (`none`) when there is no candidate or no
content; the `|| []` of the source turns the absent case into the empty list.
A part's `inlineData` carries the base64 payload when present. -/

structure InlinePart where
  inlineData : Option String
  deriving DecidableEq

abbrev GenImageParts := Option (List InlinePart)

/-- The loop of `generateShotImage` (gemini.ts lines 200-204): return a data
URL for the first part carrying inline data. -/
def firstInlineData : List InlinePart → Option String
  | [] => none
  | p :: ps =>
    match p.inlineData with
    | some d => some d
    | none => firstInlineData ps

/-- Result of `generateShotImage` as a function of the response parts
(gemini.ts lines 200-205): the data-URL of the first inline part, or the
`"No image generated"` error when the loop falls through. -/
def generateShotImage (parts : GenImageParts) : Except String String :=
  match firstInlineData (parts.getD []) with
  | some d => Except.ok ("data:image/png;base64," ++ d)
  | none => Except.error "No image generated"

/-! ### `App.tsx` — workspace state and handlers

The handlers are embedded as pure state transformers.  The outcome of the
awaited external call is a parameter of type `Except String α`, so exactly
one call is issued per handler run (the source has no retry loop); the `Bool`
component of each result records whether the external API was invoked. -/

structure AppState where
  scriptData : Option ScriptData
  logs : List LogEntry
  state : ProcessingState
  selectedSceneId : Option String
  selectedBeatId : Option String
  processingShotId : Option String
  deriving DecidableEq

/-- `addLog` (App.tsx lines 92-95); the wall-clock timestamp is the `now`
parameter. -/
def addLog (now message : String) (type : LogType) (st : AppState) : AppState :=
  { st with logs := st.logs ++ [{ timestamp := now, message := message, type := type }] }

/-- The tree update inside `toggleScene` (App.tsx lines 174-177):
`scenes: prev.scenes.map(s => s.id === sceneId ? { ...s, isExpanded: !s.isExpanded } : s)`. -/
def toggleSceneData (sd : ScriptData) (sceneId : String) : ScriptData :=
  { sd with
    scenes := sd.scenes.map fun s =>
      if s.id = sceneId then { s with isExpanded := !s.isExpanded } else s }

/-- `toggleScene` (App.tsx lines 171-179): the functional `setScriptData`
update, with the `if (!prev) return null` branch. -/
def toggleScene (prev : Option ScriptData) (sceneId : String) : Option ScriptData :=
  match prev with
  | none => none
  | some sd => some (toggleSceneData sd sceneId)

/-- The tree update inside `handleBeatSelect` (App.tsx lines 194-206):
replace the shots of beat `beatId` of scene `sceneId` by the freshly
generated list. -/
def replaceBeatShots (sd : ScriptData) (sceneId beatId : String) (shots : List Shot) : ScriptData :=
  { sd with
    scenes := sd.scenes.map fun s =>
      if s.id ≠ sceneId then s
      else { s with beats := s.beats.map fun b =>
        if b.id = beatId then { b with shots := shots } else b } }

/-- The tree update inside `renderShotImage` (App.tsx lines 224-242):
set `imageUrl` on the shot `shotId` of beat `beatId` of scene `sceneId`. -/
def updateShotImage (sd : ScriptData) (sceneId beatId shotId imageUrl : String) : ScriptData :=
  { sd with
    scenes := sd.scenes.map fun s =>
      if s.id ≠ sceneId then s
      else { s with beats := s.beats.map fun b =>
        if b.id ≠ beatId then b
        else { b with shots := b.shots.map fun sht =>
          if sht.id = shotId then { sht with imageUrl := some imageUrl } else sht } } }

/-- The tree update inside `renderShotVideo` (App.tsx lines 263-281):
set `videoUrl` on the shot `shotId` of beat `beatId` of scene `sceneId`. -/
def updateShotVideo (sd : ScriptData) (sceneId beatId shotId videoUrl : String) : ScriptData :=
  { sd with
    scenes := sd.scenes.map fun s =>
      if s.id ≠ sceneId then s
      else { s with beats := s.beats.map fun b =>
        if b.id ≠ beatId then b
        else { b with shots := b.shots.map fun sht =>
          if sht.id = shotId then { sht with videoUrl := some videoUrl } else sht } } }

/-- `handleBeatSelect` (App.tsx lines 182-214).  `apiResult` is the outcome of
`generateShotsForBeat`; the returned `Bool` is true when that call was made. -/
def handleBeatSelect (now : String) (st : AppState) (scene : Scene) (beat : Beat)
    (apiResult : Except String (List Shot)) : AppState × Bool :=
  let st := { st with selectedSceneId := some scene.id, selectedBeatId := some beat.id }
  if beat.shots.length > 0 then (st, false)
  else
    let st := { st with state := ProcessingState.GENERATING_SHOTS }
    let st := addLog now ("Analyzing beat context: " ++ scene.slugline) LogType.info st
    match apiResult with
    | Except.ok shots =>
        let st := { st with
          scriptData := st.scriptData.map fun sd => replaceBeatShots sd scene.id beat.id shots }
        let st := addLog now ("Generated " ++ natDecimal shots.length ++ " shots.") LogType.success st
        ({ st with state := ProcessingState.COMPLETE }, true)
    | Except.error e =>
        let st := addLog now ("Shot Gen Error: " ++ e) LogType.error st
        ({ st with state := ProcessingState.COMPLETE }, true)

/-- `renderShotImage` (App.tsx lines 217-249).  `apiResult` is the outcome of
`generateShotImage`; the `finally` clause clears `processingShotId` on both
paths. -/
def renderShotImage (now : String) (st : AppState) (sceneId beatId : String) (shot : Shot)
    (apiResult : Except String String) : AppState × Bool :=
  let st := { st with processingShotId := some shot.id }
  let st := addLog now ("Rendering Asset: " ++ shot.id) LogType.info st
  match apiResult with
  | Except.ok imageUrl =>
      let st := { st with
        scriptData := st.scriptData.map fun sd => updateShotImage sd sceneId beatId shot.id imageUrl }
      let st := addLog now ("Frame Rendered: " ++ shot.id) LogType.success st
      ({ st with processingShotId := none }, true)
  | Except.error e =>
      let st := addLog now ("Render Failed: " ++ e) LogType.error st
      ({ st with processingShotId := none }, true)

/-- `renderShotVideo` (App.tsx lines 252-288).  The guard at lines 253-256
logs a warning and returns before any call when the shot has no image. -/
def renderShotVideo (now : String) (st : AppState) (sceneId beatId : String) (shot : Shot)
    (apiResult : Except String String) : AppState × Bool :=
  if shot.imageUrl.isNone then
    (addLog now "Error: Missing Source Frame" LogType.warning st, false)
  else
    let st := { st with processingShotId := some shot.id }
    let st := addLog now ("Initiating Veo Simulation: " ++ shot.id) LogType.warning st
    match apiResult with
    | Except.ok videoUrl =>
        let st := { st with
          scriptData := st.scriptData.map fun sd => updateShotVideo sd sceneId beatId shot.id videoUrl }
        let st := addLog now ("Motion Sequence Finalized: " ++ shot.id) LogType.success st
        ({ st with processingShotId := none }, true)
    | Except.error e =>
        let st := addLog now ("Veo Error: " ++ e) LogType.error st
        ({ st with processingShotId := none }, true)

/-! ### `App.tsx` — object identity of the shot-row update

JavaScript distinguishes object identity from value equality: in
`b.shots.map(sht => sht.id === shot.id ? { ...sht, imageUrl } : sht)` a
non-matching `sht` is returned as the very same object, while the spread
`{ ...sht, imageUrl }` allocates a fresh object.  `RShot` pairs a shot value
with its reference tag; `replaceShotRef` is the same map with allocation made
explicit: the matching shot gets the fresh tag, every other element keeps its
tag. -/

abbrev RShot := Nat × Shot

def replaceShotRef (fresh : Nat) (shots : List RShot) (shotId imageUrl : String) : List RShot :=
  shots.map fun p =>
    if p.2.id = shotId then (fresh, { p.2 with imageUrl := some imageUrl }) else p

/-! ### `App.tsx` — shot-cell buttons and the UI step relation

The visual-preview box of a shot row (App.tsx lines 1035-1070) shows, in
order: the video when `shot.videoUrl` is set; otherwise the image with the
GENERATE MOTION button when `shot.imageUrl` is set; otherwise the loader when
`processingShotId === shot.id`, and the GENERATE FRAME button when it is not.
Only the frame button is guarded by `processingShotId`. -/

def frameButtonShown (procId : Option String) (sht : Shot) : Bool :=
  sht.videoUrl.isNone && sht.imageUrl.isNone && !(procId = some sht.id)

def motionButtonShown (sht : Shot) : Bool :=
  sht.videoUrl.isNone && sht.imageUrl.isSome

/-- `getActiveScene`/`getActiveBeat` (App.tsx lines 290-291) specialised to a
scene and beat id: the shots the workspace lists for that beat. -/
def beatShots (sd : ScriptData) (sceneId beatId : String) : List Shot :=
  match sd.scenes.find? fun s => s.id = sceneId with
  | none => []
  | some s =>
    match s.beats.find? fun b => b.id = beatId with
    | none => []
    | some b => b.shots

inductive ReqKind where
  | image
  | video
  deriving DecidableEq

/-- UI state for the request-interleaving model: the script tree, the single
`processingShotId` cell, and the multiset of in-flight requests (shot id and
kind), newest first. -/
structure UIState where
  script : ScriptData
  processingShotId : Option String
  inflight : List (String × ReqKind)
  deriving DecidableEq

inductive UIAction where
  | startImage (sceneId beatId : String) (sht : Shot)
  | startVideo (sceneId beatId : String) (sht : Shot)
  | finishImage (sceneId beatId : String) (sht : Shot) (url : String)
  | finishVideo (sceneId beatId : String) (sht : Shot) (url : String)
  | failRequest (sht : Shot) (kind : ReqKind)

/-- One user-visible transition of the workspace.  A start step requires the
shot to be listed for the selected beat and its button to be rendered; it
records the request as in flight and repeats the `setProcessingShotId` of the
handler.  A finish or fail step resolves one in-flight request, applies the
handler's `setScriptData` merge (on success) and the `finally` reset of
`processingShotId`. -/
inductive UIStep : UIState → UIAction → UIState → Prop where
  | startImage (st : UIState) (sceneId beatId : String) (sht : Shot)
      (hmem : sht ∈ beatShots st.script sceneId beatId)
      (hbtn : frameButtonShown st.processingShotId sht = true) :
      UIStep st (UIAction.startImage sceneId beatId sht)
        { st with processingShotId := some sht.id
                  inflight := (sht.id, ReqKind.image) :: st.inflight }
  | startVideo (st : UIState) (sceneId beatId : String) (sht : Shot)
      (hmem : sht ∈ beatShots st.script sceneId beatId)
      (hbtn : motionButtonShown sht = true) :
      UIStep st (UIAction.startVideo sceneId beatId sht)
        { st with processingShotId := some sht.id
                  inflight := (sht.id, ReqKind.video) :: st.inflight }
  | finishImage (st : UIState) (sceneId beatId : String) (sht : Shot) (url : String)
      (hin : (sht.id, ReqKind.image) ∈ st.inflight) :
      UIStep st (UIAction.finishImage sceneId beatId sht url)
        { script := updateShotImage st.script sceneId beatId sht.id url
          processingShotId := none
          inflight := st.inflight.erase (sht.id, ReqKind.image) }
  | finishVideo (st : UIState) (sceneId beatId : String) (sht : Shot) (url : String)
      (hin : (sht.id, ReqKind.video) ∈ st.inflight) :
      UIStep st (UIAction.finishVideo sceneId beatId sht url)
        { script := updateShotVideo st.script sceneId beatId sht.id url
          processingShotId := none
          inflight := st.inflight.erase (sht.id, ReqKind.video) }
  | failRequest (st : UIState) (sht : Shot) (kind : ReqKind)
      (hin : (sht.id, kind) ∈ st.inflight) :
      UIStep st (UIAction.failRequest sht kind)
        { st with processingShotId := none
                  inflight := st.inflight.erase (sht.id, kind) }

/-- Some step, any action. -/
def UIStepAny (st st' : UIState) : Prop := ∃ a, UIStep st a st'

/-- Reachability of the UI step relation. -/
def UIReachable (st st' : UIState) : Prop := Relation.ReflTransGen UIStepAny st st'

/-- Number of outstanding requests of a given shot. -/
def inflightCount (st : UIState) (shotId : String) : Nat :=
  st.inflight.countP fun p => p.1 = shotId

/-- Whether a log entry carries the `error` severity tag. -/
def hasErrorTag (l : LogEntry) : Bool :=
  match l.type with
  | LogType.error => true
  | _ => false

/-! ### Concrete instances used by witnesses and counterexamples -/

def demoShotA : Shot :=
  { id := "s1", shotType := "Wide Shot", visualPrompt := "a rain-soaked alley"
    action := "the hero walks in", assetIds := ["char_1"]
    imageUrl := some "data:image/png;base64,AAA", videoUrl := none }

def demoShotB : Shot :=
  { id := "s2", shotType := "Extreme Close Up", visualPrompt := "the hero's eyes"
    action := "the hero turns", assetIds := [], imageUrl := none, videoUrl := none }

def demoBeat : Beat :=
  { id := "b1", description := "opening confrontation", shots := [demoShotA, demoShotB] }

def demoBeatEmpty : Beat :=
  { id := "b2", description := "still unplanned", shots := [] }

def demoScene : Scene :=
  { id := "sc1", slugline := "INT. LAB - NIGHT", beats := [demoBeat, demoBeatEmpty]
    isExpanded := true }

def demoScript : ScriptData :=
  { title := "Demo", genre := "Drama", logline := "", assets := [], scenes := [demoScene] }

def demoAppState : AppState :=
  { scriptData := some demoScript, logs := [], state := ProcessingState.COMPLETE
    selectedSceneId := none, selectedBeatId := none, processingShotId := none }

def demoRShots : List RShot := [(0, demoShotA), (1, demoShotB)]

def initUI : UIState :=
  { script := demoScript, processingShotId := none, inflight := [] }

def midUI : UIState :=
  { script := demoScript, processingShotId := some "s1"
    inflight := [("s1", ReqKind.video)] }

def badUI : UIState :=
  { script := demoScript, processingShotId := some "s1"
    inflight := [("s1", ReqKind.video), ("s1", ReqKind.video)] }

def dupParsed : ParsedData :=
  { title := none, genre := none, logline := none, assets := none
    scenes := some [{ id := some "a", slugline := none, beats := none },
                    { id := some "a", slugline := none, beats := none }] }

def demoParsed : ParsedData :=
  { title := none, genre := some "Noir", logline := none, assets := none
    scenes := some
      [{ id := none, slugline := none
         beats := some [{ id := none, description := none },
                        { id := some "beatX", description := some "x" }] },
       { id := some "sceneA", slugline := some "EXT. ROOF - DAY", beats := none }] }

def noIdParsedScenes : List ParsedScene :=
  [{ id := none, slugline := some "INT. HALL - DAY", beats := none },
   { id := some "", slugline := none, beats := none },
   { id := none, slugline := none, beats := none }]

def demoParts : GenImageParts :=
  some [{ inlineData := none }, { inlineData := some "QUJD" }, { inlineData := some "ZZZ" }]

def noIdParsed : ParsedData :=
  { title := none, genre := none, logline := none, assets := none
    scenes := some noIdParsedScenes }

def noIdParsedBeats : List ParsedBeat :=
  [{ id := none, description := some "x" }, { id := some "", description := none }]

def blankIdShots : List Shot :=
  [{ id := "", shotType := "Wide Shot", visualPrompt := "street", action := "walk"
     assetIds := [] },
   { id := "", shotType := "Close Up", visualPrompt := "hand", action := "grip"
     assetIds := [] }]

/-! ### Helper lemmas -/

theorem firstInlineData_eq_find (l : List InlinePart) :
    firstInlineData l = (l.find? fun q => q.inlineData.isSome).bind InlinePart.inlineData := by
  induction l with
  | nil => rfl
  | cons p ps ih =>
    cases hp : p.inlineData with
    | some d => simp [firstInlineData, List.find?, hp]
    | none => simpa [firstInlineData, List.find?, hp] using ih

theorem firstInlineData_eq_none_iff (l : List InlinePart) :
    firstInlineData l = none ↔ ∀ p ∈ l, p.inlineData = none := by
  induction l with
  | nil => simp [firstInlineData]
  | cons p ps ih =>
    cases hp : p.inlineData with
    | some d => simp [firstInlineData, hp]
    | none => simp [firstInlineData, hp, ih]

/-! ### C2 -/

/-- C2: when the shot has no `imageUrl`, `renderShotVideo` only appends the
"Error: Missing Source Frame" warning entry and returns: the video API is not
invoked and the state (in particular the script tree) is otherwise untouched;
moreover the video call is issued only for shots with an image reference. -/
theorem renderShotVideo_requires_image (now : String) (st : AppState)
    (sceneId beatId : String) (shot : Shot) (apiResult : Except String String)
    (h : shot.imageUrl = none) :
    renderShotVideo now st sceneId beatId shot apiResult =
      ({ st with logs := st.logs ++
          [{ timestamp := now, message := "Error: Missing Source Frame"
             type := LogType.warning }] }, false) ∧
    (renderShotVideo now st sceneId beatId shot apiResult).1.scriptData = st.scriptData ∧
    (∀ (st2 : AppState) (s2 : Shot) (r : Except String String),
      (renderShotVideo now st2 sceneId beatId s2 r).2 = true → s2.imageUrl.isSome = true) := by
  refine ⟨?_, ?_, ?_⟩
  · simp [renderShotVideo, h, addLog]
  · simp [renderShotVideo, h, addLog]
  · intro st2 s2 r hr
    by_cases h2 : s2.imageUrl.isNone
    · simp [renderShotVideo, h2] at hr
    · simpa [Option.isSome_iff_ne_none, Option.isNone_iff_eq_none] using h2

/-- C2 witness: the theorem applied to a concrete shot without an image. -/
theorem renderShotVideo_requires_image_witness :
    renderShotVideo "12:00:00" demoAppState "sc1" "b1" demoShotB (Except.ok "v.mp4") =
      ({ demoAppState with logs := demoAppState.logs ++
          [{ timestamp := "12:00:00", message := "Error: Missing Source Frame"
             type := LogType.warning }] }, false) :=
  (renderShotVideo_requires_image "12:00:00" demoAppState "sc1" "b1" demoShotB
    (Except.ok "v.mp4") rfl).1

/-! ### C3 -/

/-- C3: `toggleScene` flips exactly the `isExpanded` flag of every scene whose
id matches (leaving its id, slugline and beats as they were), leaves every
other scene unchanged, leaves the top-level fields unchanged, and applying it
twice with the same id restores the original tree. -/
theorem toggleScene_spec (sd : ScriptData) (sceneId : String) :
    (toggleScene (some sd) sceneId = some (toggleSceneData sd sceneId)) ∧
    ((toggleSceneData sd sceneId).title = sd.title ∧
     (toggleSceneData sd sceneId).genre = sd.genre ∧
     (toggleSceneData sd sceneId).logline = sd.logline ∧
     (toggleSceneData sd sceneId).assets = sd.assets) ∧
    (∀ (k : Nat) (s : Scene), sd.scenes[k]? = some s →
      (s.id = sceneId →
        (toggleSceneData sd sceneId).scenes[k]? =
          some { s with isExpanded := !s.isExpanded }) ∧
      (s.id ≠ sceneId → (toggleSceneData sd sceneId).scenes[k]? = some s)) ∧
    toggleSceneData (toggleSceneData sd sceneId) sceneId = sd := by
  refine ⟨rfl, ⟨rfl, rfl, rfl, rfl⟩, ?_, ?_⟩
  · intro k s hk
    constructor
    · intro hid
      simp [toggleSceneData, List.getElem?_map, hk, hid]
    · intro hid
      simp [toggleSceneData, List.getElem?_map, hk, hid]
  · cases sd with
    | mk title genre logline assets scenes =>
      simp only [toggleSceneData, List.map_map]
      congr 1
      induction scenes with
      | nil => rfl
      | cons s rest ih =>
        simp only [List.map_cons]
        congr 1
        cases s with
        | mk sid slug sbeats sexp =>
          by_cases hid : sid = sceneId <;> simp [Function.comp, hid, Bool.not_not]

/-- C3 witness: the theorem applied to the demo tree at its only scene. -/
theorem toggleScene_spec_witness :
    (toggleSceneData demoScript "sc1").scenes[0]? =
      some { demoScene with isExpanded := !demoScene.isExpanded } :=
  (((toggleScene_spec demoScript "sc1").2.2.1 0 demoScene rfl).1 rfl)

/-! ### C6 -/

/-- C6: `generateShotImage` returns the inline data of the first response part
carrying inline data, prefixed with `data:image/png;base64,`, and throws
`No image generated` if and only if no response part carries inline data. -/
theorem generateShotImage_spec (parts : GenImageParts) :
    (∀ (p : InlinePart) (d : String),
      (parts.getD []).find? (fun q => q.inlineData.isSome) = some p →
      p.inlineData = some d →
      generateShotImage parts = Except.ok ("data:image/png;base64," ++ d)) ∧
    (generateShotImage parts = Except.error "No image generated" ↔
      ∀ p ∈ parts.getD [], p.inlineData = none) := by
  constructor
  · intro p d hfind hdata
    simp [generateShotImage, firstInlineData_eq_find, hfind, hdata]
  · rw [← firstInlineData_eq_none_iff]
    cases hfd : firstInlineData (parts.getD []) with
    | some d => simp [generateShotImage, hfd]
    | none => simp [generateShotImage, hfd]

/-- C6 witness: on a concrete response the first inline part wins and the
data-URL prefix is attached. -/
theorem generateShotImage_spec_witness :
    generateShotImage demoParts = Except.ok "data:image/png;base64,QUJD" :=
  (generateShotImage_spec demoParts).1 { inlineData := some "QUJD" } "QUJD" rfl rfl

/-! ### C9 -/

/-- C9: the request built by `analyzeNovel` carries only the first 20000
characters of the input, so two inputs agreeing on their first 20000
characters produce the identical request. -/
theorem analyzeRequest_truncates (t1 t2 : String) (mode : AnalyzeMode)
    (h : t1.take 20000 = t2.take 20000) :
    (analyzeRequest t1 mode).contents = t1.take 20000 ∧
    analyzeRequest t1 mode = analyzeRequest t2 mode := by
  constructor
  · simp [analyzeRequest]
  · simp [analyzeRequest, h]

/-- C9 witness: the theorem applied to two concrete equal-prefix inputs. -/
theorem analyzeRequest_truncates_witness :
    analyzeRequest "chapter one" AnalyzeMode.NOVEL =
      analyzeRequest "chapter one" AnalyzeMode.NOVEL :=
  (analyzeRequest_truncates "chapter one" "chapter one" AnalyzeMode.NOVEL rfl).2

/-! ### C10 -/

/-- C10: selecting a beat whose shot list is non-empty only records the
selection and returns — no shot-breakdown call, no log line, no tree change;
and the shot-breakdown call is issued only for beats with an empty shot
list. -/
theorem handleBeatSelect_nonEmptyShots (now : String) (st : AppState)
    (scene : Scene) (beat : Beat) (apiResult : Except String (List Shot))
    (h : beat.shots ≠ []) :
    handleBeatSelect now st scene beat apiResult =
      ({ st with selectedSceneId := some scene.id
                 selectedBeatId := some beat.id }, false) ∧
    (∀ (b2 : Beat) (r : Except String (List Shot)),
      (handleBeatSelect now st scene b2 r).2 = true → b2.shots = []) := by
  constructor
  · have hpos : beat.shots.length > 0 := List.length_pos.mpr h
    simp [handleBeatSelect, hpos]
  · intro b2 r hr
    by_cases h2 : b2.shots.length > 0
    · simp [handleBeatSelect, h2] at hr
    · exact List.length_eq_zero.mp (Nat.eq_zero_of_not_pos h2)

/-- C10 witness: the theorem applied to a concrete beat that already has
shots. -/
theorem handleBeatSelect_nonEmptyShots_witness :
    handleBeatSelect "12:00:00" demoAppState demoScene demoBeat
        (Except.error "network down") =
      ({ demoAppState with selectedSceneId := some "sc1"
                           selectedBeatId := some "b1" }, false) :=
  (handleBeatSelect_nonEmptyShots "12:00:00" demoAppState demoScene demoBeat
    (Except.error "network down") (by exact List.cons_ne_nil _ _)).1

/-! ### C1 -/

/-- C1 counterexample: after the replace-shot-by-id update performed by
`renderShotImage`, the sibling shot is returned as the very same object
(reference tag 1 before and after), so on this concrete shot row the claim's
"every sibling shot is referentially distinct from before" is false. -/
theorem replaceShotRef_sibling_not_distinct :
    (replaceShotRef 2 demoRShots "s1" "u")[1]? = demoRShots[1]? ∧
    demoRShots[1]? = some (1, demoShotB) := ⟨rfl, rfl⟩

/-- C1 amended: the replace-shot-by-id update sets `imageUrl` on exactly the
shots with the given id (as freshly allocated objects), returns every sibling
shot as the same reference with unchanged value, and leaves every other
scene, beat and shot — and the top-level fields — unchanged. -/
theorem updateShotImage_spec (sd : ScriptData) (sceneId beatId shotId url : String)
    (fresh : Nat) (shots : List RShot) :
    ((updateShotImage sd sceneId beatId shotId url).title = sd.title ∧
     (updateShotImage sd sceneId beatId shotId url).genre = sd.genre ∧
     (updateShotImage sd sceneId beatId shotId url).logline = sd.logline ∧
     (updateShotImage sd sceneId beatId shotId url).assets = sd.assets) ∧
    (∀ (k : Nat) (s : Scene), sd.scenes[k]? = some s →
      (s.id ≠ sceneId → (updateShotImage sd sceneId beatId shotId url).scenes[k]? = some s) ∧
      (s.id = sceneId → ∃ s',
        (updateShotImage sd sceneId beatId shotId url).scenes[k]? = some s' ∧
        s'.id = s.id ∧ s'.slugline = s.slugline ∧ s'.isExpanded = s.isExpanded ∧
        (∀ (j : Nat) (b : Beat), s.beats[j]? = some b →
          (b.id ≠ beatId → s'.beats[j]? = some b) ∧
          (b.id = beatId → ∃ b', s'.beats[j]? = some b' ∧
            b'.id = b.id ∧ b'.description = b.description ∧
            (∀ (m : Nat) (sht : Shot), b.shots[m]? = some sht →
              (sht.id = shotId →
                b'.shots[m]? = some { sht with imageUrl := some url }) ∧
              (sht.id ≠ shotId → b'.shots[m]? = some sht)))))) ∧
    (∀ (m : Nat) (p : RShot), shots[m]? = some p →
      (p.2.id = shotId →
        (replaceShotRef fresh shots shotId url)[m]? =
          some (fresh, { p.2 with imageUrl := some url })) ∧
      (p.2.id ≠ shotId → (replaceShotRef fresh shots shotId url)[m]? = some p)) := by
  refine ⟨⟨rfl, rfl, rfl, rfl⟩, ?_, ?_⟩
  · intro k s hk
    constructor
    · intro hid
      simp [updateShotImage, List.getElem?_map, hk, hid]
    · intro hid
      refine ⟨{ s with beats := s.beats.map fun b =>
        if b.id ≠ beatId then b
        else { b with shots := b.shots.map fun sht =>
          if sht.id = shotId then { sht with imageUrl := some url } else sht } },
        ?_, rfl, rfl, rfl, ?_⟩
      · simp [updateShotImage, List.getElem?_map, hk, hid]
      · intro j b hj
        constructor
        · intro hbid
          simp [List.getElem?_map, hj, hbid]
        · intro hbid
          refine ⟨{ b with shots := b.shots.map fun sht =>
            if sht.id = shotId then { sht with imageUrl := some url } else sht },
            ?_, rfl, rfl, ?_⟩
          · simp [List.getElem?_map, hj, hbid]
          · intro m sht hm
            constructor
            · intro hsid
              simp [List.getElem?_map, hm, hsid]
            · intro hsid
              simp [List.getElem?_map, hm, hsid]
  · intro m p hm
    constructor
    · intro hpid
      simp [replaceShotRef, List.getElem?_map, hm, hpid]
    · intro hpid
      simp [replaceShotRef, List.getElem?_map, hm, hpid]

/-- C1 witness: the matching shot of the concrete row is replaced by a fresh
object carrying the new image reference. -/
theorem updateShotImage_spec_witness :
    (replaceShotRef 2 demoRShots "s2" "u")[1]? =
      some (2, { demoShotB with imageUrl := some "u" }) :=
  ((updateShotImage_spec demoScript "sc1" "b1" "s2" "u" 2 demoRShots).2.2
    1 (1, demoShotB) rfl).1 rfl

/-! ### C5 -/

/-- C5: when the external call of `handleBeatSelect`, `renderShotImage` or
`renderShotVideo` fails, the handler catches the error, the log gains exactly
one entry tagged `error` (after the pre-call status entry), and the script
tree is exactly what it was before the call; the one recorded call is the
only one issued. -/
theorem apiFailure_caught (now : String) (st : AppState) (scene : Scene)
    (beat : Beat) (sceneId beatId : String) (shot : Shot) (e : String)
    (hbeat : beat.shots = []) (himg : shot.imageUrl.isSome = true) :
    ((handleBeatSelect now st scene beat (Except.error e)).1.scriptData = st.scriptData ∧
     (handleBeatSelect now st scene beat (Except.error e)).2 = true ∧
     (handleBeatSelect now st scene beat (Except.error e)).1.logs = st.logs ++
       [{ timestamp := now, message := "Analyzing beat context: " ++ scene.slugline
          type := LogType.info },
        { timestamp := now, message := "Shot Gen Error: " ++ e, type := LogType.error }] ∧
     List.countP hasErrorTag
       [{ timestamp := now, message := "Analyzing beat context: " ++ scene.slugline
          type := LogType.info },
        { timestamp := now, message := "Shot Gen Error: " ++ e, type := LogType.error }] = 1) ∧
    ((renderShotImage now st sceneId beatId shot (Except.error e)).1.scriptData = st.scriptData ∧
     (renderShotImage now st sceneId beatId shot (Except.error e)).2 = true ∧
     (renderShotImage now st sceneId beatId shot (Except.error e)).1.logs = st.logs ++
       [{ timestamp := now, message := "Rendering Asset: " ++ shot.id, type := LogType.info },
        { timestamp := now, message := "Render Failed: " ++ e, type := LogType.error }] ∧
     List.countP hasErrorTag
       [{ timestamp := now, message := "Rendering Asset: " ++ shot.id, type := LogType.info },
        { timestamp := now, message := "Render Failed: " ++ e, type := LogType.error }] = 1) ∧
    ((renderShotVideo now st sceneId beatId shot (Except.error e)).1.scriptData = st.scriptData ∧
     (renderShotVideo now st sceneId beatId shot (Except.error e)).2 = true ∧
     (renderShotVideo now st sceneId beatId shot (Except.error e)).1.logs = st.logs ++
       [{ timestamp := now, message := "Initiating Veo Simulation: " ++ shot.id
          type := LogType.warning },
        { timestamp := now, message := "Veo Error: " ++ e, type := LogType.error }] ∧
     List.countP hasErrorTag
       [{ timestamp := now, message := "Initiating Veo Simulation: " ++ shot.id
          type := LogType.warning },
        { timestamp := now, message := "Veo Error: " ++ e, type := LogType.error }] = 1) := by
  obtain ⟨u, hu⟩ := Option.isSome_iff_exists.mp himg
  have hlen : ¬ beat.shots.length > 0 := by simp [hbeat]
  refine ⟨⟨?_, ?_, ?_, ?_⟩, ⟨?_, ?_, ?_, ?_⟩, ⟨?_, ?_, ?_, ?_⟩⟩ <;>
    simp [handleBeatSelect, renderShotImage, renderShotVideo, addLog, hlen, hu,
      List.countP_cons, hasErrorTag]

/-- C5 witness: the Veo failure path on the concrete workspace state leaves
the script tree untouched. -/
theorem apiFailure_caught_witness :
    (renderShotVideo "12:00:01" demoAppState "sc1" "b1" demoShotA
      (Except.error "quota exhausted")).1.scriptData = demoAppState.scriptData :=
  ((apiFailure_caught "12:00:01" demoAppState demoScene demoBeatEmpty "sc1" "b1"
    demoShotA "quota exhausted" rfl rfl).2.2).1

/-! ### C7 -/

/-- C7 counterexample: the GENERATE MOTION button is rendered whenever the
shot has an image and no video, with no check of `processingShotId`; so from
the demo workspace two video requests for shot "s1" can be started back to
back, reaching a state with two outstanding requests for that one shot. -/
theorem doubleVideoRequest_reachable :
    UIReachable initUI badUI ∧ inflightCount badUI "s1" = 2 := by
  constructor
  · have hmem : demoShotA ∈ beatShots demoScript "sc1" "b1" :=
      List.mem_cons_self _ _
    have h1 : UIStepAny initUI midUI :=
      ⟨UIAction.startVideo "sc1" "b1" demoShotA,
        UIStep.startVideo initUI "sc1" "b1" demoShotA hmem rfl⟩
    have h2 : UIStepAny midUI badUI :=
      ⟨UIAction.startVideo "sc1" "b1" demoShotA,
        UIStep.startVideo midUI "sc1" "b1" demoShotA hmem rfl⟩
    exact Relation.ReflTransGen.head h1 (Relation.ReflTransGen.single h2)
  · rfl

/-- C7 amended: only the frame button is guarded by `processingShotId`: an
image render can be started for a shot only when that shot is not the one
marked processing and has no image or video yet, and right after the start
the shot is the one marked processing, so its frame button is hidden in the
successor state.  The motion button carries no such guard (see the
counterexample), so the per-shot at-most-one-outstanding-request claim holds
only for image requests started from a quiescent state, not in general. -/
theorem startImage_guard (st st' : UIState) (sceneId beatId : String) (sht : Shot)
    (h : UIStep st (UIAction.startImage sceneId beatId sht) st') :
    st.processingShotId ≠ some sht.id ∧ sht.imageUrl = none ∧ sht.videoUrl = none ∧
    st'.processingShotId = some sht.id ∧
    frameButtonShown st'.processingShotId sht = false := by
  cases h with
  | startImage _ _ _ hmem hbtn =>
    simp only [frameButtonShown, Bool.and_eq_true, Bool.not_eq_true',
      decide_eq_false_iff_not, Option.isNone_iff_eq_none] at hbtn
    refine ⟨hbtn.2, hbtn.1.2, hbtn.1.1, rfl, ?_⟩
    simp [frameButtonShown]

/-- C7 witness: the guard theorem applied to a concrete image-render start
step for the still-imageless shot "s2". -/
theorem startImage_guard_witness :
    initUI.processingShotId ≠ some demoShotB.id ∧
    demoShotB.imageUrl = none ∧ demoShotB.videoUrl = none ∧
    ({ initUI with processingShotId := some demoShotB.id
                   inflight := (demoShotB.id, ReqKind.image) :: initUI.inflight }
      : UIState).processingShotId = some demoShotB.id ∧
    frameButtonShown (some demoShotB.id) demoShotB = false :=
  startImage_guard initUI _ "sc1" "b1" demoShotB
    (UIStep.startImage initUI "sc1" "b1" demoShotB
      (List.mem_cons_of_mem _ (List.mem_cons_self _ _)) rfl)

/-! ### Helper lemmas for the fallback-id scheme -/

theorem charVal_digitChar : ∀ d : Nat, d < 10 → charVal (Nat.digitChar d) = d := by
  decide

theorem decVal_append (cs : List Char) (c : Char) :
    decVal (cs ++ [c]) = decVal cs * 10 + charVal c := by
  simp [decVal, List.foldl_append]

theorem decVal_decChars (n : Nat) : decVal (decChars n) = n := by
  induction n using Nat.strong_induction_on with
  | _ n ih =>
    by_cases h : n < 10
    · rw [decChars]
      simp only [h, dite_true]
      simpa [decVal] using charVal_digitChar n h
    · rw [decChars]
      simp only [h, dite_false]
      rw [decVal_append, ih (n / 10) (Nat.div_lt_self (by omega) (by omega)),
        charVal_digitChar (n % 10) (Nat.mod_lt _ (by omega))]
      omega

theorem decChars_injective : Function.Injective decChars := by
  intro a b h
  have ha := decVal_decChars a
  rw [h, decVal_decChars] at ha
  exact ha.symm

theorem natDecimal_injective : Function.Injective natDecimal := by
  intro a b h
  exact decChars_injective (congrArg String.data h)

theorem string_append_cancel_left (p a b : String) (h : p ++ a = p ++ b) : a = b := by
  have hd := congrArg String.data h
  simp only [String.data_append] at hd
  exact String.ext (List.append_cancel_left hd)

theorem string_append_ne_empty (p x : String) (hp : p ≠ "") : p ++ x ≠ "" := by
  intro h
  have hd := congrArg String.data h
  simp only [String.data_append] at hd
  exact hp (String.ext (by simp [(List.append_eq_nil.mp hd).1]))

theorem strOr_ne_empty (v : Option String) (d : String) (hd : d ≠ "") :
    strOr v d ≠ "" := by
  cases v with
  | none => exact hd
  | some s =>
    by_cases hs : s = "" <;> simp [strOr, hs, hd]

theorem sanitizeScenes_fallback_mem (ss : List ParsedScene) :
    ∀ (k : Nat), (∀ sc ∈ ss, sc.id = none ∨ sc.id = some "") →
    ∀ x ∈ (sanitizeScenes k ss).map Scene.id, ∃ j, x = "scene_" ++ natDecimal (k + j) := by
  induction ss with
  | nil => intro k _ x hx; simp [sanitizeScenes] at hx
  | cons sc rest ih =>
    intro k h x hx
    simp only [sanitizeScenes, List.map_cons, List.mem_cons] at hx
    rcases hx with hx | hx
    · refine ⟨0, ?_⟩
      rcases h sc (List.mem_cons_self _ _) with h1 | h1 <;>
        simp [hx, sanitizeScene, strOr, h1]
    · obtain ⟨j, hj⟩ := ih (k + 1) (fun b hb => h b (List.mem_cons_of_mem _ hb)) x hx
      refine ⟨j + 1, ?_⟩
      rw [hj]
      have harith : k + 1 + j = k + (j + 1) := by omega
      rw [harith]

theorem sanitizeScenes_fallback_nodup (ss : List ParsedScene) :
    ∀ (k : Nat), (∀ sc ∈ ss, sc.id = none ∨ sc.id = some "") →
    ((sanitizeScenes k ss).map Scene.id).Nodup := by
  induction ss with
  | nil => intro k _; simp [sanitizeScenes]
  | cons sc rest ih =>
    intro k h
    simp only [sanitizeScenes, List.map_cons, List.nodup_cons]
    constructor
    · intro hmem
      obtain ⟨j, hj⟩ := sanitizeScenes_fallback_mem rest (k + 1)
        (fun b hb => h b (List.mem_cons_of_mem _ hb)) _ hmem
      have hid : (sanitizeScene k sc).id = "scene_" ++ natDecimal k := by
        rcases h sc (List.mem_cons_self _ _) with h1 | h1 <;>
          simp [sanitizeScene, strOr, h1]
      rw [hid] at hj
      have := natDecimal_injective (string_append_cancel_left "scene_" _ _ hj)
      omega
    · exact ih (k + 1) (fun b hb => h b (List.mem_cons_of_mem _ hb))

theorem beatFallback_assoc (s b : Nat) :
    "beat_" ++ natDecimal s ++ "_" ++ natDecimal b =
      (("beat_" ++ natDecimal s) ++ "_") ++ natDecimal b := by
  apply String.ext
  simp [String.data_append]

theorem sanitizeBeats_fallback_mem (sIdx : Nat) (bs : List ParsedBeat) :
    ∀ (k : Nat), (∀ b ∈ bs, b.id = none ∨ b.id = some "") →
    ∀ x ∈ (sanitizeBeats sIdx k bs).map Beat.id,
      ∃ j, x = "beat_" ++ natDecimal sIdx ++ "_" ++ natDecimal (k + j) := by
  induction bs with
  | nil => intro k _ x hx; simp [sanitizeBeats] at hx
  | cons b rest ih =>
    intro k h x hx
    simp only [sanitizeBeats, List.map_cons, List.mem_cons] at hx
    rcases hx with hx | hx
    · refine ⟨0, ?_⟩
      rcases h b (List.mem_cons_self _ _) with h1 | h1 <;>
        simp [hx, sanitizeBeat, strOr, h1]
    · obtain ⟨j, hj⟩ := ih (k + 1) (fun p hp => h p (List.mem_cons_of_mem _ hp)) x hx
      refine ⟨j + 1, ?_⟩
      rw [hj]
      have harith : k + 1 + j = k + (j + 1) := by omega
      rw [harith]

theorem sanitizeBeats_fallback_nodup (sIdx : Nat) (bs : List ParsedBeat) :
    ∀ (k : Nat), (∀ b ∈ bs, b.id = none ∨ b.id = some "") →
    ((sanitizeBeats sIdx k bs).map Beat.id).Nodup := by
  induction bs with
  | nil => intro k _; simp [sanitizeBeats]
  | cons b rest ih =>
    intro k h
    simp only [sanitizeBeats, List.map_cons, List.nodup_cons]
    constructor
    · intro hmem
      obtain ⟨j, hj⟩ := sanitizeBeats_fallback_mem sIdx rest (k + 1)
        (fun p hp => h p (List.mem_cons_of_mem _ hp)) _ hmem
      have hid : (sanitizeBeat sIdx k b).id =
          "beat_" ++ natDecimal sIdx ++ "_" ++ natDecimal k := by
        rcases h b (List.mem_cons_self _ _) with h1 | h1 <;>
          simp [sanitizeBeat, strOr, h1]
      rw [hid, beatFallback_assoc, beatFallback_assoc] at hj
      have := natDecimal_injective (string_append_cancel_left _ _ _ hj)
      omega
    · exact ih (k + 1) (fun p hp => h p (List.mem_cons_of_mem _ hp))

theorem shotFallback_assoc (t i : Nat) :
    "shot_" ++ natDecimal t ++ "_" ++ natDecimal i =
      (("shot_" ++ natDecimal t) ++ "_") ++ natDecimal i := by
  apply String.ext
  simp [String.data_append]

theorem assignShotIds_fallback_mem (now : Nat) (shots : List Shot) :
    ∀ (k : Nat), (∀ s ∈ shots, s.id = "") →
    ∀ x ∈ (assignShotIds now k shots).map Shot.id,
      ∃ j, x = "shot_" ++ natDecimal now ++ "_" ++ natDecimal (k + j) := by
  induction shots with
  | nil => intro k _ x hx; simp [assignShotIds] at hx
  | cons s rest ih =>
    intro k h x hx
    simp only [assignShotIds, List.map_cons, List.mem_cons] at hx
    rcases hx with hx | hx
    · refine ⟨0, ?_⟩
      simp [hx, h s (List.mem_cons_self _ _)]
    · obtain ⟨j, hj⟩ := ih (k + 1) (fun p hp => h p (List.mem_cons_of_mem _ hp)) x hx
      refine ⟨j + 1, ?_⟩
      rw [hj]
      have harith : k + 1 + j = k + (j + 1) := by omega
      rw [harith]

theorem assignShotIds_fallback_nodup (now : Nat) (shots : List Shot) :
    ∀ (k : Nat), (∀ s ∈ shots, s.id = "") →
    ((assignShotIds now k shots).map Shot.id).Nodup := by
  induction shots with
  | nil => intro k _; simp [assignShotIds]
  | cons s rest ih =>
    intro k h
    simp only [assignShotIds, List.map_cons, List.nodup_cons]
    constructor
    · intro hmem
      obtain ⟨j, hj⟩ := assignShotIds_fallback_mem now rest (k + 1)
        (fun p hp => h p (List.mem_cons_of_mem _ hp)) _ hmem
      have hid : ((if s.id = ""
          then { s with id := "shot_" ++ natDecimal now ++ "_" ++ natDecimal k }
          else s)).id = "shot_" ++ natDecimal now ++ "_" ++ natDecimal k := by
        simp [h s (List.mem_cons_self _ _)]
      rw [hid, shotFallback_assoc, shotFallback_assoc] at hj
      have := natDecimal_injective (string_append_cancel_left _ _ _ hj)
      omega
    · exact ih (k + 1) (fun p hp => h p (List.mem_cons_of_mem _ hp))

/-! ### C4 -/

/-- C4 counterexample: a decoded analysis response whose two scenes both carry
the model-supplied id "a" passes through the sanitize stage unchanged, so the
tree produced by `analyzeNovel` has two sibling scenes with the same id. -/
theorem analyzeNovel_duplicate_ids :
    (analyzeNovelResult dupParsed).scenes.map Scene.id = ["a", "a"] ∧
    ¬ ((analyzeNovelResult dupParsed).scenes.map Scene.id).Nodup := by
  refine ⟨rfl, ?_⟩
  intro hn
  rw [show (analyzeNovelResult dupParsed).scenes.map Scene.id = ["a", "a"] from rfl] at hn
  simp at hn

/-- C4 amended: the sanitize stage enforces no uniqueness on model-supplied
ids (see the counterexample); the fallback ids it generates itself are unique
within their parent collection: scene ids when no scene supplies an id, beat
ids of one scene when no beat supplies an id, and shot ids assigned by
`generateShotsForBeat` when no decoded shot supplies an id. -/
theorem fallback_ids_unique (parsed : ParsedData) (ss : List ParsedScene)
    (sIdx bIdx now i : Nat) (bs : List ParsedBeat) (shots : List Shot)
    (hps : parsed.scenes = some ss)
    (hss : ∀ sc ∈ ss, sc.id = none ∨ sc.id = some "")
    (hbs : ∀ b ∈ bs, b.id = none ∨ b.id = some "")
    (hsh : ∀ s ∈ shots, s.id = "") :
    ((analyzeNovelResult parsed).scenes.map Scene.id).Nodup ∧
    ((sanitizeBeats sIdx bIdx bs).map Beat.id).Nodup ∧
    ((assignShotIds now i shots).map Shot.id).Nodup := by
  refine ⟨?_, sanitizeBeats_fallback_nodup sIdx bs bIdx hbs,
    assignShotIds_fallback_nodup now shots i hsh⟩
  have hsc : (analyzeNovelResult parsed).scenes = sanitizeScenes 0 ss := by
    simp [analyzeNovelResult, hps]
  rw [hsc]
  exact sanitizeScenes_fallback_nodup ss 0 hss

/-- C4 witness: on a concrete response with no usable ids anywhere, the
generated scene ids are pairwise distinct. -/
theorem fallback_ids_unique_witness :
    ((analyzeNovelResult noIdParsed).scenes.map Scene.id).Nodup :=
  (fallback_ids_unique noIdParsed noIdParsedScenes 0 0 99 0 noIdParsedBeats
    blankIdShots rfl (by decide) (by decide) (by decide)).1

/-! ### Helper lemmas for the shape of sanitized trees -/

theorem sanitizeScenes_mem (ss : List ParsedScene) :
    ∀ (k : Nat), ∀ s ∈ sanitizeScenes k ss, ∃ sIdx sc, sc ∈ ss ∧ s = sanitizeScene sIdx sc := by
  induction ss with
  | nil => intro k s hs; simp [sanitizeScenes] at hs
  | cons sc rest ih =>
    intro k s hs
    rcases List.mem_cons.mp hs with hs | hs
    · exact ⟨k, sc, List.mem_cons_self _ _, hs⟩
    · obtain ⟨i, sc', hmem, heq⟩ := ih (k + 1) s hs
      exact ⟨i, sc', List.mem_cons_of_mem _ hmem, heq⟩

theorem sanitizeBeats_mem (sIdx : Nat) (bs : List ParsedBeat) :
    ∀ (k : Nat), ∀ b ∈ sanitizeBeats sIdx k bs, ∃ bIdx pb, pb ∈ bs ∧ b = sanitizeBeat sIdx bIdx pb := by
  induction bs with
  | nil => intro k b hb; simp [sanitizeBeats] at hb
  | cons pb rest ih =>
    intro k b hb
    rcases List.mem_cons.mp hb with hb | hb
    · exact ⟨k, pb, List.mem_cons_self _ _, hb⟩
    · obtain ⟨i, pb', hmem, heq⟩ := ih (k + 1) b hb
      exact ⟨i, pb', List.mem_cons_of_mem _ hmem, heq⟩

theorem sanitizeScenes_getElem (ss : List ParsedScene) :
    ∀ (k j : Nat), (sanitizeScenes k ss)[j]? = ss[j]?.map fun sc => sanitizeScene (k + j) sc := by
  induction ss with
  | nil => intro k j; simp [sanitizeScenes]
  | cons sc rest ih =>
    intro k j
    cases j with
    | zero => simp [sanitizeScenes]
    | succ j =>
      simp only [sanitizeScenes, List.getElem?_cons_succ]
      rw [ih (k + 1) j]
      have harith : k + 1 + j = k + (j + 1) := by omega
      rw [harith]

/-! ### C8 -/

/-- C8: the tree returned by `analyzeNovel` is fully defaulted and
well-formed: missing title/genre/logline/assets/scenes fields get their
defaults; every scene is expanded with a non-empty id and a non-empty
slugline; every beat starts with an empty shot list and a non-empty id; and
positionally, a scene with a missing or empty id gets `scene_<index>`, a
missing or empty slugline becomes `UNKNOWN SCENE`, and a missing (non-array)
beats field becomes the empty list. -/
theorem analyzeNovelResult_wellFormed (parsed : ParsedData) :
    (parsed.title = none → (analyzeNovelResult parsed).title = "Untitled") ∧
    (parsed.genre = none → (analyzeNovelResult parsed).genre = "Drama") ∧
    (parsed.logline = none → (analyzeNovelResult parsed).logline = "") ∧
    (parsed.assets = none → (analyzeNovelResult parsed).assets = []) ∧
    (parsed.scenes = none → (analyzeNovelResult parsed).scenes = []) ∧
    (∀ s ∈ (analyzeNovelResult parsed).scenes,
      s.isExpanded = true ∧ s.id ≠ "" ∧ s.slugline ≠ "" ∧
      ∀ b ∈ s.beats, b.shots = [] ∧ b.id ≠ "") ∧
    (∀ (ss : List ParsedScene), parsed.scenes = some ss →
      ∀ (k : Nat) (sc : ParsedScene), ss[k]? = some sc →
        ∃ s, (analyzeNovelResult parsed).scenes[k]? = some s ∧
          (sc.id = none ∨ sc.id = some "" → s.id = "scene_" ++ natDecimal k) ∧
          (sc.slugline = none ∨ sc.slugline = some "" →
            s.slugline = "UNKNOWN SCENE") ∧
          (sc.beats = none → s.beats = [])) := by
  refine ⟨?_, ?_, ?_, ?_, ?_, ?_, ?_⟩
  · intro h; simp [analyzeNovelResult, strOr, h]
  · intro h; simp [analyzeNovelResult, strOr, h]
  · intro h; simp [analyzeNovelResult, strOr, h]
  · intro h; simp [analyzeNovelResult, h]
  · intro h; simp [analyzeNovelResult, h]
  · intro s hs
    have hshape : ∃ sIdx sc, s = sanitizeScene sIdx sc := by
      cases hps : parsed.scenes with
      | none =>
        rw [show (analyzeNovelResult parsed).scenes = [] from by
          simp [analyzeNovelResult, hps]] at hs
        simp at hs
      | some ss =>
        rw [show (analyzeNovelResult parsed).scenes = sanitizeScenes 0 ss from by
          simp [analyzeNovelResult, hps]] at hs
        obtain ⟨i, sc, _, heq⟩ := sanitizeScenes_mem ss 0 s hs
        exact ⟨i, sc, heq⟩
    obtain ⟨i, sc, rfl⟩ := hshape
    refine ⟨rfl, ?_, ?_, ?_⟩
    · exact strOr_ne_empty _ _ (string_append_ne_empty _ _ (by decide))
    · exact strOr_ne_empty _ _ (by decide)
    · intro b hb
      have hbshape : ∃ bIdx pb, b = sanitizeBeat i bIdx pb := by
        cases hcb : sc.beats with
        | none =>
          rw [show (sanitizeScene i sc).beats = [] from by
            simp [sanitizeScene, hcb]] at hb
          simp at hb
        | some bs =>
          rw [show (sanitizeScene i sc).beats = sanitizeBeats i 0 bs from by
            simp [sanitizeScene, hcb]] at hb
          obtain ⟨j, pb, _, heq⟩ := sanitizeBeats_mem i bs 0 b hb
          exact ⟨j, pb, heq⟩
      obtain ⟨j, pb, rfl⟩ := hbshape
      exact ⟨rfl, strOr_ne_empty _ _ (string_append_ne_empty _ _
        (string_append_ne_empty _ _ (string_append_ne_empty _ _ (by decide))))⟩
  · intro ss hps k sc hk
    have hsc : (analyzeNovelResult parsed).scenes = sanitizeScenes 0 ss := by
      simp [analyzeNovelResult, hps]
    refine ⟨sanitizeScene k sc, ?_, ?_, ?_, ?_⟩
    · rw [hsc, sanitizeScenes_getElem ss 0 k, hk]
      simp
    · intro hid
      rcases hid with h1 | h1 <;> simp [sanitizeScene, strOr, h1]
    · intro hslug
      rcases hslug with h1 | h1 <;> simp [sanitizeScene, strOr, h1]
    · intro hb
      simp [sanitizeScene, hb]

/-- C8 witness: the theorem applied to a concrete decoded response with a
missing title. -/
theorem analyzeNovelResult_wellFormed_witness :
    (analyzeNovelResult demoParsed).title = "Untitled" :=
  (analyzeNovelResult_wellFormed demoParsed).1 rfl

end CineOS
